import Mathlib

/-!
Verification of the webxr-layers repository: a shallow embedding of its
media-layer session coordinator and controller interaction logic.

Embedded source files:
* `src/util/MediaLayerManager.js` — the layer factory (`createLayer`).
* `src/apps/simple-video-layers/multiple-layers.js` — the multi-layer
  application: session bootstrap in `render`, `handleSelectStart`,
  `handleSelectEnd`, the `disconnected` handler in `setupVR`.
* `src/unnamed/part_000` — the single-layer application: its `render`
  bootstrap guard, `updateProgressBar`, `setVideoCurrentTime`.

JavaScript numbers in the progress-bar arithmetic are modelled as `ℚ`
(the claims allow floating tolerance; over `ℚ` the identities are exact).
`undefined` is modelled explicitly where the code can produce it.
-/

namespace WebXRLayers

/-! ## Layer factory: `src/util/MediaLayerManager.js` -/

/-- A JavaScript value that is either `undefined` or a string, as can be
passed for the `layerType` parameter of `createLayer`. -/
inductive JSVal where
  | undefVal
  | str (s : String)
deriving DecidableEq, Repr

namespace MediaLayerManager

/-- The static getter `MediaLayerManager.QUAD_LAYER` (source line 7-9). -/
def static_QUAD_LAYER : JSVal := .str "QUAD_LAYER"

/-- The static getter `MediaLayerManager.EQUIRECT_LAYER` (source line 11-13). -/
def static_EQUIRECT_LAYER : JSVal := .str "EQUIRECT_LAYER"

/-- The value of `this.QUAD_LAYER` inside the instance method `createLayer`.
`QUAD_LAYER` is declared as a *static* getter, which lives on the
constructor, not on the prototype chain of an instance, so the property
lookup `this.QUAD_LAYER` yields `undefined`. -/
def this_QUAD_LAYER : JSVal := .undefVal

/-- The value of `this.EQUIRECT_LAYER` inside the instance method
`createLayer`; `undefined` for the same reason as `this_QUAD_LAYER`. -/
def this_EQUIRECT_LAYER : JSVal := .undefVal

/-- Outcome of a `createLayer` call. `thrown` is the synchronous
`InvalidLayerKind` throw; `resolved` is the value the returned promise
settles with (`none` models the `undefined` `layer` variable when the
`switch` matches neither case). -/
inductive CreateLayerOutcome where
  | thrown (msg : String)
  | resolved (layer : Option String)
deriving DecidableEq, Repr

/-- Shallow embedding of `createLayer` (MediaLayerManager.js lines 29-62).
Returns the outcome paired with a `Bool` that records whether
`session.requestReferenceSpace` was invoked (the first asynchronous step).
The validity check compares `layerType` with `this.QUAD_LAYER` and
`this.EQUIRECT_LAYER`, both of which evaluate to `undefined`. -/
def createLayer (layerType : JSVal) : CreateLayerOutcome × Bool :=
  if layerType ≠ this_QUAD_LAYER ∧ layerType ≠ this_EQUIRECT_LAYER then
    (.thrown "Invalid layer type: layer type must be one of QUAD_LAYER || EQUIRECT_LAYER", false)
  else
    -- `await this.session.requestReferenceSpace("local")` runs here.
    let layer : Option String :=
      match layerType with
      | .str "QUAD_LAYER" => some "quadLayer"
      | .str "EQUIRECT_LAYER" => some "equirectLayer"
      | _ => none
    (.resolved layer, true)

/-- Whether a `JSVal` is a member of {QUAD_LAYER, EQUIRECT_LAYER}. -/
def isValidLayerKind (layerType : JSVal) : Bool :=
  layerType == static_QUAD_LAYER || layerType == static_EQUIRECT_LAYER

end MediaLayerManager

/-! ## Progress bar: `src/unnamed/part_000`, `updateProgressBar` and
`setVideoCurrentTime` -/

/-- The mutable playback fields of the HTML video element that the
progress-bar code touches. -/
structure VideoState where
  currentTime : ℚ
  duration : ℚ
deriving Repr

/-- Scale and x-position of the two progress-bar segments after an update.
Both segment meshes are built from `PlaneGeometry(1, 0.1)`, so a segment's
world width equals its x-scale and its edges sit at `posX ± scale / 2`. -/
structure ProgressBarView where
  redScale : ℚ
  redPosX : ℚ
  whiteScale : ℚ
  whitePosX : ℚ
deriving Repr

/-- Shallow embedding of `updateProgressBar` (part_000 lines 321-339):
`progress = (currentTime / duration) * 2`; the red (played) segment gets
scale `progress` and position `-(2 - progress) / 2`; the white (remaining)
segment gets scale `2 - progress` and position `progress / 2`. -/
def updateProgressBar (v : VideoState) : ProgressBarView :=
  let progress := v.currentTime / v.duration * 2
  { redScale := progress
    redPosX := -((2 - progress) / 2)
    whiteScale := 2 - progress
    whitePosX := progress / 2 }

/-- Shallow embedding of `setVideoCurrentTime` (part_000 lines 341-345):
`timeFraction = (xPosition + 1) / 2`, then
`currentTime = timeFraction * duration`. -/
def setVideoCurrentTime (v : VideoState) (xPosition : ℚ) : VideoState :=
  { v with currentTime := (xPosition + 1) / 2 * v.duration }

/-- The full width of the progress bar: the two unit-width planes are
scaled so that the played and remaining scales always span `2` world
units (the bar shows `progress ∈ [0, 2]`). -/
def barWidth : ℚ := 2

/-- World x-coordinate of the left edge of the red (played) segment. -/
def ProgressBarView.redLeftEdge (b : ProgressBarView) : ℚ :=
  b.redPosX - b.redScale / 2

/-- World x-coordinate of the right edge of the white (remaining) segment. -/
def ProgressBarView.whiteRightEdge (b : ProgressBarView) : ℚ :=
  b.whitePosX + b.whiteScale / 2

/-! ## Controller interaction: `multiple-layers.js`, `handleSelectStart`
(lines 339-368) -/

/-- Per-layer state read by `handleSelectStart`: the layer's entry in
`scene.userData.isToolbarVisible` and whether the layer object carries a
`glassLayer` (draggable overlay). -/
structure MediaLayerView where
  visible : Bool
  hasGlassLayer : Bool
deriving DecidableEq, Repr

/-- Scene/controller operations performed by the `handleSelectStart` body
for one layer, in source order. -/
inductive ToolbarOp where
  | addToolbar
  | addGlass
  | removeToolbar
  | removeGlass
  | updateWithHits (hits : Nat)
  | attachGlassToController
deriving DecidableEq, Repr

/-- The body of the `mediaLayers.forEach` inside `handleSelectStart`
(multiple-layers.js lines 340-367) for a single layer: if the layer's
toolbar is not visible, mark it visible and add the toolbar group (and the
glass, when the layer has a `glassLayer`); otherwise ray-cast against this
layer's own objects (`hits` is the intersection count): zero hits marks
the layer hidden and removes toolbar group and glass, one or more hits
invokes `layerObj.update` and, for draggable layers, attaches the glass
to the controller. -/
def selectStartLayer (s : MediaLayerView) (hits : Nat) :
    MediaLayerView × List ToolbarOp :=
  if !s.visible then
    ({ s with visible := true },
      ToolbarOp.addToolbar :: if s.hasGlassLayer then [ToolbarOp.addGlass] else [])
  else if hits == 0 then
    ({ s with visible := false }, [ToolbarOp.removeToolbar, ToolbarOp.removeGlass])
  else
    (s, ToolbarOp.updateWithHits hits ::
      if s.hasGlassLayer then [ToolbarOp.attachGlassToController] else [])

/-- A sequence of select-start events for one (controller, layer) pair,
each carrying the hit count its ray-cast produces; returns the final
layer state and the concatenated operation trace. -/
def runSelectStarts (s : MediaLayerView) : List Nat → MediaLayerView × List ToolbarOp
  | [] => (s, [])
  | h :: hs =>
    let step := selectStartLayer s h
    let rest := runSelectStarts step.1 hs
    (rest.1, step.2 ++ rest.2)

/-- Restriction of an operation trace to toolbar-group scene membership
changes (`addToolbar` / `removeToolbar`). -/
def toolbarAddRemoves (ops : List ToolbarOp) : List ToolbarOp :=
  ops.filter fun o => o == ToolbarOp.addToolbar || o == ToolbarOp.removeToolbar

/-- `altFrom expectAdd ops` holds when `ops` strictly alternates between
`addToolbar` and `removeToolbar`, starting with an add exactly when
`expectAdd` is true. -/
def altFrom : Bool → List ToolbarOp → Bool
  | _, [] => true
  | true, o :: rest => o == ToolbarOp.addToolbar && altFrom false rest
  | false, o :: rest => o == ToolbarOp.removeToolbar && altFrom true rest

/-- The whole `handleSelectStart` (multiple-layers.js lines 339-368): one
select-start event runs the per-layer body over every entry of
`mediaLayers`, in map order; `hitsOf key` is the intersection count the
ray-cast yields against layer `key`'s own objects. Returns the updated
layer list and the trace of operations tagged by layer key. -/
def handleSelectStart (hitsOf : String → Nat) :
    List (String × MediaLayerView) →
      List (String × MediaLayerView) × List (String × ToolbarOp)
  | [] => ([], [])
  | (key, v) :: rest =>
    let step := selectStartLayer v (hitsOf key)
    let restOut := handleSelectStart hitsOf rest
    ((key, step.1) :: restOut.1, step.2.map (fun o => (key, o)) ++ restOut.2)

/-! ## Disconnect cleanup: the `disconnected` listeners installed in
`setupVR` (multiple-layers.js lines 446-461, part_000 lines 428-443) -/

/-- Objects the scene's child list can contain in these applications. -/
inductive SceneObj where
  | layerToolbarGroup (layerKey : String)
  | layerGlass (layerKey : String)
  | otherObj (tag : String)
deriving DecidableEq, Repr

/-- `THREE.Object3D.remove(obj)`: removes the first occurrence of `obj`
from the child list when present; a call with `undefined` (modelled as
`none`) finds no index and leaves the children untouched. -/
def sceneRemoveObj (children : List SceneObj) : Option SceneObj → List SceneObj
  | none => children
  | some o => children.erase o

/-- The value of `this.toolbarGroup` inside the multi-layer App's
`disconnected` listener: the class in multiple-layers.js never assigns a
`toolbarGroup` property (its toolbars live per layer in `mediaLayers`),
so the lookup yields `undefined`. -/
def multiAppToolbarGroupProp : Option SceneObj := none

/-- The `disconnected` listener of multiple-layers.js (lines 451-453):
`this.scene.remove(this.toolbarGroup)`. -/
def onDisconnectedMulti (sceneChildren : List SceneObj) : List SceneObj :=
  sceneRemoveObj sceneChildren multiAppToolbarGroupProp

/-- The value of `this.toolbarGroup` in the single-layer App (part_000):
assigned in the constructor from `createToolbarGroup`. -/
def singleAppToolbarGroupProp : Option SceneObj :=
  some (SceneObj.layerToolbarGroup "single")

/-- The `disconnected` listener of part_000 (lines 433-435):
`this.scene.remove(this.toolbarGroup)` with the toolbar group present. -/
def onDisconnectedSingle (sceneChildren : List SceneObj) : List SceneObj :=
  sceneRemoveObj sceneChildren singleAppToolbarGroupProp

/-- A concrete scene in the multi-layer app with both layer toolbars
visible and the quad layer's glass overlay present. -/
def visibleScene : List SceneObj :=
  [SceneObj.layerToolbarGroup "equirect", SceneObj.layerToolbarGroup "quad",
    SceneObj.layerGlass "quad"]

/-! ## Session bootstrap: `multiple-layers.js` `render` (lines 55-154) and
`part_000` `render` (lines 57-92) -/

/-- Entries of the session's render-state layer list. `undef` models the
JavaScript `undefined` that `renderState.layers[0]` yields on an empty
list. -/
inductive Layer where
  | base
  | equirect
  | quad
  | undefLayer
deriving DecidableEq, Repr

/-- Observable events of one bootstrap attempt, in execution order:
setting `session.hasMediaLayer`, each factory call, a propagated
rejection, the `updateRenderState` publication, and each `video.play()`. -/
inductive BootEvent where
  | setFlag
  | factoryCall (kind : Layer)
  | errorRaised (msg : String)
  | publish (layers : List Layer)
  | play (video : String)
deriving DecidableEq, Repr

/-- Session-side state the multi-layer `render` bootstrap reads and
writes, plus an event log recording the order of its effects. -/
structure BootState where
  hasMediaLayer : Bool
  layersSupported : Bool
  renderLayers : List Layer
  playCountEquirect : Nat
  playCountQuad : Nat
  log : List BootEvent
deriving DecidableEq, Repr

/-- Per-frame inputs of the multi-layer `render` body: the `readyState`
of each tracked video, and the outcomes of the two asynchronous
`createMediaLayer` factory calls. -/
structure FrameInput where
  readyStates : List Nat
  equirectResult : Except String Unit
  quadResult : Except String Unit
deriving Repr

/-- The readiness scan of multiple-layers.js lines 76-81: `isVideosReady`
starts true and is cleared by any video whose `readyState !== 4`. -/
def isVideosReady (readyStates : List Nat) : Bool :=
  readyStates.all fun r => r == 4

/-- Whether a factory outcome is a rejection. -/
def isFailure : Except String Unit → Bool
  | .error _ => true
  | .ok _ => false

/-- The bootstrap portion of the multi-layer `render`
(multiple-layers.js lines 83-151). When the guard
`session && session.renderState.layers && !session.hasMediaLayer &&
isVideosReady` holds, `session.hasMediaLayer` is set before the first
`await`; the equirect factory call runs, then the quad factory call; a
rejection of either propagates out of the async body, skipping
`updateRenderState` and playback; on success the layer list
`[equirect.layer, quad.layer, session.renderState.layers[0]]` is
published and then every tracked video's `play()` is invoked once. -/
def renderFrame (input : FrameInput) (s : BootState) : BootState :=
  if s.layersSupported && !s.hasMediaLayer && isVideosReady input.readyStates then
    let s1 := { s with hasMediaLayer := true, log := s.log ++ [BootEvent.setFlag] }
    match input.equirectResult with
    | .error e =>
        { s1 with log := s1.log ++ [BootEvent.factoryCall Layer.equirect,
                                    BootEvent.errorRaised e] }
    | .ok _ =>
      match input.quadResult with
      | .error e =>
          { s1 with log := s1.log ++ [BootEvent.factoryCall Layer.equirect,
                                      BootEvent.factoryCall Layer.quad,
                                      BootEvent.errorRaised e] }
      | .ok _ =>
          let published := [Layer.equirect, Layer.quad, s1.renderLayers.headD Layer.undefLayer]
          { s1 with
            renderLayers := published
            playCountEquirect := s1.playCountEquirect + 1
            playCountQuad := s1.playCountQuad + 1
            log := s1.log ++ [BootEvent.factoryCall Layer.equirect,
                              BootEvent.factoryCall Layer.quad,
                              BootEvent.publish published,
                              BootEvent.play "equirect", BootEvent.play "quad"] }
  else s

/-- Iterated render frames, in order. -/
def runFrames : List FrameInput → BootState → BootState
  | [], s => s
  | i :: rest, s => runFrames rest (renderFrame i s)

/-- Session state when the multi-layer app enters the render loop: no
media layer yet, layer support granted, and the render-state layer list
holding only the session's original base layer. -/
def initialBootState : BootState :=
  { hasMediaLayer := false, layersSupported := true, renderLayers := [Layer.base],
    playCountEquirect := 0, playCountQuad := 0, log := [] }

/-- Whether a bootstrap event is the setting of `session.hasMediaLayer`. -/
def isSetFlag : BootEvent → Bool
  | BootEvent.setFlag => true
  | _ => false

/-- Number of times the bootstrap body was entered, read off the log. -/
def countSetFlag (log : List BootEvent) : Nat :=
  (log.filter isSetFlag).length

/-- The state reached from `initialBootState` by one frame whose videos
are all fully ready and whose two factory calls succeed. -/
def bootAfterReadyFrame : BootState :=
  { hasMediaLayer := true, layersSupported := true,
    renderLayers := [Layer.equirect, Layer.quad, Layer.base],
    playCountEquirect := 1, playCountQuad := 1,
    log := [BootEvent.setFlag, BootEvent.factoryCall Layer.equirect,
            BootEvent.factoryCall Layer.quad,
            BootEvent.publish [Layer.equirect, Layer.quad, Layer.base],
            BootEvent.play "equirect", BootEvent.play "quad"] }

/-- Invariant carried through the frame loop: while the idempotency flag
is still clear the log is empty, the bootstrap body has run at most once,
and a non-empty log starts with the flag being set. -/
def bootInv (s : BootState) : Prop :=
  (s.hasMediaLayer = false → s.log = []) ∧
    countSetFlag s.log ≤ 1 ∧
    (s.log ≠ [] → s.log.head? = some BootEvent.setFlag)

/-- Session-side state of the single-layer app's bootstrap (part_000). -/
structure SingleBootState where
  hasMediaLayer : Bool
  layersSupported : Bool
  renderLayers : List Layer
  playCount : Nat
deriving DecidableEq, Repr

/-- The bootstrap portion of the single-layer `render` (part_000 lines
69-90). Its readiness conjunct is the truthiness of
`this.video.readyState`, i.e. `readyState ≠ 0` — not a comparison with
4. On entry it creates the equirect layer, publishes
`[equirectLayer, session.renderState.layers[0]]` and plays the video. -/
def renderFrameSingle (readyState : Nat) (s : SingleBootState) : SingleBootState :=
  if s.layersSupported && !s.hasMediaLayer && readyState != 0 then
    { s with
      hasMediaLayer := true
      renderLayers := [Layer.equirect, s.renderLayers.headD Layer.undefLayer]
      playCount := s.playCount + 1 }
  else s

/-- Session state when the single-layer app enters the render loop. -/
def initialSingleBootState : SingleBootState :=
  { hasMediaLayer := false, layersSupported := true,
    renderLayers := [Layer.base], playCount := 0 }

/-- The two managed layers of the multi-layer app, both toolbars hidden;
only the quad layer carries a glass overlay. -/
def demoLayers : List (String × MediaLayerView) :=
  [("equirect", ⟨false, false⟩), ("quad", ⟨false, true⟩)]

/-- A hit function whose ray-cast misses every layer. -/
def zeroHits : String → Nat := fun _ => 0

/-! ## Theorems -/

/-- C1: the claim says every `layerKind` outside {QUAD_LAYER,
EQUIRECT_LAYER} makes `createLayer` fail synchronously before
`requestReferenceSpace` is invoked. The validity check compares against
`this.QUAD_LAYER`/`this.EQUIRECT_LAYER`, both `undefined` because the
getters are static, so the invalid value `undefined` passes the check and
reaches `requestReferenceSpace`, while the valid string "QUAD_LAYER"
throws. -/
theorem c1_undefined_kind_reaches_reference_space :
    MediaLayerManager.isValidLayerKind JSVal.undefVal = false ∧
    (MediaLayerManager.createLayer JSVal.undefVal).2 = true ∧
    (MediaLayerManager.createLayer JSVal.undefVal).1 =
      MediaLayerManager.CreateLayerOutcome.resolved none ∧
    MediaLayerManager.isValidLayerKind (JSVal.str "QUAD_LAYER") = true ∧
    (MediaLayerManager.createLayer (JSVal.str "QUAD_LAYER")).2 = false ∧
    (MediaLayerManager.createLayer (JSVal.str "QUAD_LAYER")).1 =
      MediaLayerManager.CreateLayerOutcome.thrown
        "Invalid layer type: layer type must be one of QUAD_LAYER || EQUIRECT_LAYER" := by
  decide

/-- C5: the claim says a `disconnected` event removes every visible layer
toolbar and attached overlay from the scene. In the multi-layer app the
handler removes `this.toolbarGroup`, a property that is never assigned,
so the scene is left unchanged: both toolbar groups and the glass overlay
survive the event. (The single-layer app, whose `toolbarGroup` exists,
does remove it.) -/
theorem c5_disconnected_removes_nothing_in_multi_app :
    onDisconnectedMulti visibleScene = visibleScene ∧
    SceneObj.layerToolbarGroup "equirect" ∈ onDisconnectedMulti visibleScene ∧
    SceneObj.layerToolbarGroup "quad" ∈ onDisconnectedMulti visibleScene ∧
    SceneObj.layerGlass "quad" ∈ onDisconnectedMulti visibleScene ∧
    onDisconnectedSingle [SceneObj.layerToolbarGroup "single", SceneObj.otherObj "camera"] =
      [SceneObj.otherObj "camera"] := by
  decide

/-- C6: for every video state with `currentTime ∈ [0, duration]` and
`duration > 0`, the progress-bar update gives the played segment scale
`(currentTime / duration) * barWidth`, the remaining segment the rest,
their scales sum to `barWidth` exactly, the played segment is flush-left
and the remaining segment flush-right. -/
theorem c6_progress_segments_partition (v : VideoState)
    (h0 : 0 ≤ v.currentTime) (h1 : v.currentTime ≤ v.duration) (hd : 0 < v.duration) :
    (updateProgressBar v).redScale = v.currentTime / v.duration * barWidth ∧
    (updateProgressBar v).whiteScale = barWidth - (updateProgressBar v).redScale ∧
    (updateProgressBar v).redScale + (updateProgressBar v).whiteScale = barWidth ∧
    (updateProgressBar v).redLeftEdge = -(barWidth / 2) ∧
    (updateProgressBar v).whiteRightEdge = barWidth / 2 := by
  refine ⟨?_, ?_, ?_, ?_, ?_⟩ <;>
    simp [updateProgressBar, barWidth, ProgressBarView.redLeftEdge,
      ProgressBarView.whiteRightEdge] <;>
    ring

/-- Witness for C6 at `currentTime = 1`, `duration = 2`. -/
theorem c6_progress_segments_partition_witness :
    (updateProgressBar ⟨1, 2⟩).redScale + (updateProgressBar ⟨1, 2⟩).whiteScale = barWidth ∧
    (updateProgressBar ⟨1, 2⟩).redLeftEdge = -(barWidth / 2) ∧
    (updateProgressBar ⟨1, 2⟩).whiteRightEdge = barWidth / 2 :=
  ⟨(c6_progress_segments_partition ⟨1, 2⟩ (by norm_num) (by norm_num) (by norm_num)).2.2.1,
   (c6_progress_segments_partition ⟨1, 2⟩ (by norm_num) (by norm_num) (by norm_num)).2.2.2.1,
   (c6_progress_segments_partition ⟨1, 2⟩ (by norm_num) (by norm_num) (by norm_num)).2.2.2.2⟩

/-- C7: for every `x ∈ [-barWidth/2, barWidth/2]` and `duration > 0`,
scrubbing at `x` sets `currentTime = ((x + barWidth/2)/barWidth) *
duration`, and the following progress-bar update gives a played-segment
scale of exactly `x + barWidth/2`. -/
theorem c7_scrub_update_roundtrip (v : VideoState) (x : ℚ)
    (hx0 : -(barWidth / 2) ≤ x) (hx1 : x ≤ barWidth / 2) (hd : 0 < v.duration) :
    (setVideoCurrentTime v x).currentTime = (x + barWidth / 2) / barWidth * v.duration ∧
    (updateProgressBar (setVideoCurrentTime v x)).redScale = x + barWidth / 2 := by
  have hd0 : v.duration ≠ 0 := ne_of_gt hd
  constructor
  · simp [setVideoCurrentTime, barWidth]
  · simp [updateProgressBar, setVideoCurrentTime, barWidth]
    field_simp
    ring

/-- Witness for C7 at `x = 1/2`, `duration = 10`. -/
theorem c7_scrub_update_roundtrip_witness :
    (setVideoCurrentTime ⟨0, 10⟩ (1 / 2)).currentTime =
      (1 / 2 + barWidth / 2) / barWidth * (10 : ℚ) ∧
    (updateProgressBar (setVideoCurrentTime ⟨0, 10⟩ (1 / 2))).redScale =
      1 / 2 + barWidth / 2 :=
  c7_scrub_update_roundtrip ⟨0, 10⟩ (1 / 2) (by norm_num [barWidth])
    (by norm_num [barWidth]) (by norm_num)

/-- The toolbar add/remove trace of any select-start sequence strictly
alternates, starting with an add exactly when the layer starts hidden. -/
theorem altFrom_runSelectStarts (hs : List Nat) (s : MediaLayerView) :
    altFrom (!s.visible) (toolbarAddRemoves (runSelectStarts s hs).2) = true := by
  induction hs generalizing s with
  | nil => simp [runSelectStarts, toolbarAddRemoves, altFrom]
  | cons h hs ih =>
    obtain ⟨vis, glass⟩ := s
    cases vis with
    | false =>
      cases glass with
      | false =>
        simpa [runSelectStarts, selectStartLayer, toolbarAddRemoves, altFrom,
          List.filter_append] using ih ⟨true, false⟩
      | true =>
        simpa [runSelectStarts, selectStartLayer, toolbarAddRemoves, altFrom,
          List.filter_append] using ih ⟨true, true⟩
    | true =>
      rcases Nat.eq_zero_or_pos h with hz | hp
      · cases glass with
        | false =>
          simpa [runSelectStarts, selectStartLayer, hz, toolbarAddRemoves, altFrom,
            List.filter_append] using ih ⟨false, false⟩
        | true =>
          simpa [runSelectStarts, selectStartLayer, hz, toolbarAddRemoves, altFrom,
            List.filter_append] using ih ⟨false, true⟩
      · have hnz : h ≠ 0 := Nat.pos_iff_ne_zero.mp hp
        cases glass with
        | false =>
          simpa [runSelectStarts, selectStartLayer, hnz, toolbarAddRemoves, altFrom,
            List.filter_append] using ih ⟨true, false⟩
        | true =>
          simpa [runSelectStarts, selectStartLayer, hnz, toolbarAddRemoves, altFrom,
            List.filter_append] using ih ⟨true, true⟩

/-- C2: from a hidden toolbar, a select-start marks the layer visible and
adds its toolbar group; from a visible toolbar, a select-start whose
ray-cast against this layer's objects yields zero hits marks it hidden
and removes the toolbar group; and over any select-start sequence
starting hidden, toolbar adds and removes strictly alternate starting
with an add, so the group is never added twice without an intervening
removal. -/
theorem c2_toolbar_visibility_toggle (s : MediaLayerView) (hits : Nat) (hs : List Nat) :
    (s.visible = false →
      (selectStartLayer s hits).1.visible = true ∧
      ToolbarOp.addToolbar ∈ (selectStartLayer s hits).2) ∧
    (s.visible = true → hits = 0 →
      (selectStartLayer s hits).1.visible = false ∧
      ToolbarOp.removeToolbar ∈ (selectStartLayer s hits).2) ∧
    (s.visible = false →
      altFrom true (toolbarAddRemoves (runSelectStarts s hs).2) = true) := by
  refine ⟨?_, ?_, ?_⟩
  · intro hv
    simp [selectStartLayer, hv]
  · intro hv hh
    simp [selectStartLayer, hv, hh]
  · intro hv
    have h := altFrom_runSelectStarts hs s
    rw [hv] at h
    simpa using h

/-- Witness for C2: a hidden equirect layer is shown by one select-start,
a visible one with zero hits is hidden again, and over the event sequence
miss, hit, miss, miss the add/remove trace alternates. -/
theorem c2_toolbar_visibility_toggle_witness :
    ((selectStartLayer ⟨false, false⟩ 0).1.visible = true ∧
      ToolbarOp.addToolbar ∈ (selectStartLayer ⟨false, false⟩ 0).2) ∧
    ((selectStartLayer ⟨true, false⟩ 0).1.visible = false ∧
      ToolbarOp.removeToolbar ∈ (selectStartLayer ⟨true, false⟩ 0).2) ∧
    altFrom true (toolbarAddRemoves (runSelectStarts ⟨false, false⟩ [0, 3, 0, 0]).2) = true :=
  ⟨(c2_toolbar_visibility_toggle ⟨false, false⟩ 0 []).1 rfl,
   (c2_toolbar_visibility_toggle ⟨true, false⟩ 0 []).2.1 rfl rfl,
   (c2_toolbar_visibility_toggle ⟨false, false⟩ 0 [0, 3, 0, 0]).2.2 rfl⟩

/-- C10: one select-start event from a single controller applies the
visibility transition to every managed layer, whatever the per-layer hit
counts are: when every toolbar starts hidden, the event marks every layer
visible, keeps the layer keys in order, adds every layer's toolbar group,
and adds the glass overlay of every draggable layer. -/
theorem c10_select_start_applies_to_all_layers
    (layers : List (String × MediaLayerView)) (hitsOf : String → Nat)
    (hall : ∀ p ∈ layers, p.2.visible = false) :
    (∀ p ∈ (handleSelectStart hitsOf layers).1, p.2.visible = true) ∧
    (handleSelectStart hitsOf layers).1.map Prod.fst = layers.map Prod.fst ∧
    (∀ p ∈ layers, (p.1, ToolbarOp.addToolbar) ∈ (handleSelectStart hitsOf layers).2) ∧
    (∀ p ∈ layers, p.2.hasGlassLayer = true →
      (p.1, ToolbarOp.addGlass) ∈ (handleSelectStart hitsOf layers).2) := by
  induction layers with
  | nil => simp [handleSelectStart]
  | cons kv rest ih =>
    obtain ⟨key, v⟩ := kv
    have hv : v.visible = false := hall (key, v) (List.mem_cons_self _ _)
    obtain ⟨ih1, ih2, ih3, ih4⟩ := ih fun p hp => hall p (List.mem_cons_of_mem _ hp)
    refine ⟨?_, ?_, ?_, ?_⟩
    · intro p hp
      rw [handleSelectStart] at hp
      simp at hp
      rcases hp with hp | hp
      · rw [hp]
        simp [selectStartLayer, hv]
      · exact ih1 p hp
    · rw [handleSelectStart]
      simpa using ih2
    · intro p hp
      rcases List.mem_cons.mp hp with hp | hp
      · rw [handleSelectStart]
        rw [hp]
        simp [selectStartLayer, hv]
      · rw [handleSelectStart]
        simp only [List.mem_append]
        exact Or.inr (ih3 p hp)
    · intro p hp hg
      rcases List.mem_cons.mp hp with hp | hp
      · rw [handleSelectStart]
        rw [hp] at hg ⊢
        simp [selectStartLayer, hv]
        exact Or.inl hg
      · rw [handleSelectStart]
        simp only [List.mem_append]
        exact Or.inr (ih4 p hp hg)

/-- Witness for C10: with both demo layers hidden and a ray that misses
everything, one select-start adds the equirect toolbar, the quad toolbar,
and the quad glass overlay, and preserves the key order. -/
theorem c10_select_start_applies_to_all_layers_witness :
    ("equirect", ToolbarOp.addToolbar) ∈ (handleSelectStart zeroHits demoLayers).2 ∧
    ("quad", ToolbarOp.addToolbar) ∈ (handleSelectStart zeroHits demoLayers).2 ∧
    ("quad", ToolbarOp.addGlass) ∈ (handleSelectStart zeroHits demoLayers).2 ∧
    (handleSelectStart zeroHits demoLayers).1.map Prod.fst = demoLayers.map Prod.fst :=
  ⟨(c10_select_start_applies_to_all_layers demoLayers zeroHits (by decide)).2.2.1
      ("equirect", ⟨false, false⟩) (by decide),
   (c10_select_start_applies_to_all_layers demoLayers zeroHits (by decide)).2.2.1
      ("quad", ⟨false, true⟩) (by decide),
   (c10_select_start_applies_to_all_layers demoLayers zeroHits (by decide)).2.2.2
      ("quad", ⟨false, true⟩) (by decide) rfl,
   (c10_select_start_applies_to_all_layers demoLayers zeroHits (by decide)).2.1⟩

/-- Once the idempotency flag is set, a render frame is a no-op. -/
theorem renderFrame_of_hasMediaLayer (i : FrameInput) (s : BootState)
    (h : s.hasMediaLayer = true) : renderFrame i s = s := by
  simp [renderFrame, h]

/-- Once the idempotency flag is set, the whole frame loop is a no-op. -/
theorem runFrames_of_hasMediaLayer (inputs : List FrameInput) (s : BootState)
    (h : s.hasMediaLayer = true) : runFrames inputs s = s := by
  induction inputs with
  | nil => rfl
  | cons i rest ih =>
    rw [runFrames, renderFrame_of_hasMediaLayer i s h]
    exact ih

/-- A frame whose guard passes sets the flag first: whatever the factory
outcomes are, the flag ends up set, exactly one `setFlag` event is
logged, and it is the first log entry. -/
theorem renderFrame_enters (i : FrameInput) (s : BootState)
    (hm : s.hasMediaLayer = false) (hsup : s.layersSupported = true)
    (hready : isVideosReady i.readyStates = true) (hlog : s.log = []) :
    (renderFrame i s).hasMediaLayer = true ∧
    countSetFlag (renderFrame i s).log = 1 ∧
    (renderFrame i s).log.head? = some BootEvent.setFlag := by
  obtain ⟨rs, er, qr⟩ := i
  simp only at hready
  cases er <;> cases qr <;>
    simp [renderFrame, hm, hsup, hready, hlog, countSetFlag, isSetFlag]

/-- One render frame preserves the bootstrap invariant. -/
theorem bootInv_renderFrame (i : FrameInput) (s : BootState) (h : bootInv s) :
    bootInv (renderFrame i s) := by
  obtain ⟨h1, h2, h3⟩ := h
  cases hm : s.hasMediaLayer with
  | true =>
    rw [renderFrame_of_hasMediaLayer i s hm]
    exact ⟨h1, h2, h3⟩
  | false =>
    have hlog : s.log = [] := h1 hm
    obtain ⟨rs, er, qr⟩ := i
    cases hsup : s.layersSupported with
    | false =>
      simp [renderFrame, hsup]
      exact ⟨h1, h2, h3⟩
    | true =>
      cases hready : isVideosReady rs with
      | false =>
        simp [renderFrame, hsup, hready]
        exact ⟨h1, h2, h3⟩
      | true =>
        cases er <;> cases qr <;>
          simp [bootInv, renderFrame, hm, hsup, hready, hlog, countSetFlag, isSetFlag]

/-- The frame loop preserves the bootstrap invariant. -/
theorem bootInv_runFrames (inputs : List FrameInput) (s : BootState) (h : bootInv s) :
    bootInv (runFrames inputs s) := by
  induction inputs generalizing s with
  | nil => exact h
  | cons i rest ih => exact ih _ (bootInv_renderFrame i s h)

/-- C3: starting from the initial session, a frame in which every tracked
video has `readyState` 4 and both factory calls succeed publishes exactly
the three-element layer list `[equirect, quad, base]` with the original
base layer trailing, logs the publication before the two `play()` calls,
plays each video exactly once, and leaves the session a fixed point of
every later frame, so `play()` is never invoked again. -/
theorem c3_two_layer_ready_frame (rs : List Nat) (inputs : List FrameInput)
    (hready : isVideosReady rs = true) :
    renderFrame ⟨rs, Except.ok (), Except.ok ()⟩ initialBootState = bootAfterReadyFrame ∧
    bootAfterReadyFrame.renderLayers = [Layer.equirect, Layer.quad, Layer.base] ∧
    bootAfterReadyFrame.log =
      [BootEvent.setFlag, BootEvent.factoryCall Layer.equirect,
        BootEvent.factoryCall Layer.quad,
        BootEvent.publish [Layer.equirect, Layer.quad, Layer.base],
        BootEvent.play "equirect", BootEvent.play "quad"] ∧
    bootAfterReadyFrame.playCountEquirect = 1 ∧
    bootAfterReadyFrame.playCountQuad = 1 ∧
    runFrames inputs bootAfterReadyFrame = bootAfterReadyFrame := by
  refine ⟨?_, rfl, rfl, rfl, rfl, runFrames_of_hasMediaLayer inputs _ rfl⟩
  simp [renderFrame, initialBootState, bootAfterReadyFrame, hready]

/-- Witness for C3 with two ready videos and one extra frame. -/
theorem c3_two_layer_ready_frame_witness :
    isVideosReady [4, 4] = true ∧
    renderFrame ⟨[4, 4], Except.ok (), Except.ok ()⟩ initialBootState = bootAfterReadyFrame ∧
    runFrames [⟨[4, 4], Except.ok (), Except.ok ()⟩] bootAfterReadyFrame = bootAfterReadyFrame :=
  ⟨by decide,
   (c3_two_layer_ready_frame [4, 4] [] (by decide)).1,
   (c3_two_layer_ready_frame [4, 4] [⟨[4, 4], Except.ok (), Except.ok ()⟩]
      (by decide)).2.2.2.2.2⟩

/-- C4: over any sequence of frames from the initial session the
bootstrap body is entered at most once; when a non-empty log exists its
first event is the setting of the idempotency flag, which happens before
any factory call; and over any positive number of all-ready frames the
body is entered exactly once. -/
theorem c4_bootstrap_runs_at_most_once (inputs : List FrameInput) (n : Nat)
    (i : FrameInput) (hready : isVideosReady i.readyStates = true) :
    countSetFlag (runFrames inputs initialBootState).log ≤ 1 ∧
    ((runFrames inputs initialBootState).log ≠ [] →
      (runFrames inputs initialBootState).log.head? = some BootEvent.setFlag) ∧
    countSetFlag (runFrames (List.replicate (n + 1) i) initialBootState).log = 1 := by
  have hinv : bootInv initialBootState := by
    refine ⟨fun _ => rfl, ?_, fun h => absurd rfl h⟩
    simp [initialBootState, countSetFlag]
  have hrun := bootInv_runFrames inputs initialBootState hinv
  have henters := renderFrame_enters i initialBootState rfl rfl hready rfl
  refine ⟨hrun.2.1, hrun.2.2, ?_⟩
  rw [List.replicate_succ, runFrames,
    runFrames_of_hasMediaLayer (List.replicate n i) _ henters.1]
  exact henters.2.1

/-- Witness for C4: three consecutive all-ready frames still enter the
bootstrap body exactly once. -/
theorem c4_bootstrap_runs_at_most_once_witness :
    isVideosReady [4, 4] = true ∧
    countSetFlag
      (runFrames (List.replicate 3 ⟨[4, 4], Except.ok (), Except.ok ()⟩)
        initialBootState).log = 1 :=
  ⟨by decide,
   (c4_bootstrap_runs_at_most_once [] 2 ⟨[4, 4], Except.ok (), Except.ok ()⟩
      (by decide)).2.2⟩

/-- C8: publication is all-or-nothing. If either factory call fails, the
frame leaves the render-state layer list and both play counters
untouched, logs no publication and no playback, and, when the bootstrap
body was actually entered, logs the propagated rejection; and any
publication a frame does log is the full three-element list (custom
layers then the original head of the render-state list), which requires
both factory calls to have succeeded. -/
theorem c8_all_or_nothing_publication (s : BootState) (i : FrameInput)
    (hlog : s.log = []) :
    ((isFailure i.equirectResult || isFailure i.quadResult) = true →
      (renderFrame i s).renderLayers = s.renderLayers ∧
      (renderFrame i s).playCountEquirect = s.playCountEquirect ∧
      (renderFrame i s).playCountQuad = s.playCountQuad ∧
      (∀ ls, BootEvent.publish ls ∉ (renderFrame i s).log) ∧
      (∀ v, BootEvent.play v ∉ (renderFrame i s).log) ∧
      ((s.layersSupported && !s.hasMediaLayer && isVideosReady i.readyStates) = true →
        ∃ e, BootEvent.errorRaised e ∈ (renderFrame i s).log)) ∧
    (∀ ls, BootEvent.publish ls ∈ (renderFrame i s).log →
      ls = [Layer.equirect, Layer.quad, s.renderLayers.headD Layer.undefLayer] ∧
      isFailure i.equirectResult = false ∧ isFailure i.quadResult = false) := by
  obtain ⟨rs, er, qr⟩ := i
  cases hg : (s.layersSupported && !s.hasMediaLayer && isVideosReady rs) with
  | false =>
    have hframe : renderFrame ⟨rs, er, qr⟩ s = s := by
      simp [renderFrame, hg]
    rw [hframe, hlog]
    simp [hg]
  | true =>
    have hm : s.hasMediaLayer = false := by
      cases hmm : s.hasMediaLayer with
      | false => rfl
      | true => simp [hmm] at hg
    have hsup : s.layersSupported = true := by
      cases hss : s.layersSupported with
      | false => simp [hss] at hg
      | true => rfl
    have hready : isVideosReady rs = true := by
      cases hrr : isVideosReady rs with
      | false => simp [hrr] at hg
      | true => rfl
    cases er <;> cases qr <;>
      simp [renderFrame, isFailure, hm, hsup, hready, hlog]

/-- Witness for C8: a failing equirect factory call on a ready initial
session publishes nothing and leaves the layer list unchanged. -/
theorem c8_all_or_nothing_publication_witness :
    (renderFrame ⟨[4, 4], Except.error "boom", Except.ok ()⟩ initialBootState).renderLayers =
      initialBootState.renderLayers ∧
    BootEvent.publish [Layer.equirect, Layer.quad, Layer.base] ∉
      (renderFrame ⟨[4, 4], Except.error "boom", Except.ok ()⟩ initialBootState).log ∧
    BootEvent.play "equirect" ∉
      (renderFrame ⟨[4, 4], Except.error "boom", Except.ok ()⟩ initialBootState).log :=
  ⟨((c8_all_or_nothing_publication initialBootState
      ⟨[4, 4], Except.error "boom", Except.ok ()⟩ rfl).1 (by decide)).1,
   ((c8_all_or_nothing_publication initialBootState
      ⟨[4, 4], Except.error "boom", Except.ok ()⟩ rfl).1 (by decide)).2.2.2.1
      [Layer.equirect, Layer.quad, Layer.base],
   ((c8_all_or_nothing_publication initialBootState
      ⟨[4, 4], Except.error "boom", Except.ok ()⟩ rfl).1 (by decide)).2.2.2.2.1
      "equirect"⟩

/-- C9 counterexample: the claim says the bootstrap creates media layers
only when every tracked source reaches `readyState` 4, and that below the
threshold no layer is created. The single-layer bootstrap cited by the
claim guards on the truthiness of `video.readyState`, so at
`readyState = 1` — below the all-data-loaded threshold — it creates and
publishes its layer and starts playback. -/
theorem c9_single_bootstrap_fires_below_threshold :
    (1 : Nat) ≠ 4 ∧
    (renderFrameSingle 1 initialSingleBootState).hasMediaLayer = true ∧
    (renderFrameSingle 1 initialSingleBootState).renderLayers =
      [Layer.equirect, Layer.base] ∧
    (renderFrameSingle 1 initialSingleBootState).playCount = 1 := by
  decide

/-- C9 amended: the multi-layer bootstrap creates layers only when every
tracked video reports `readyState` 4 — a frame in which some tracked
video is below that threshold changes nothing and raises no error, the
guard being simply re-evaluated next frame — while the single-layer
bootstrap requires only a non-zero `readyState`: it is a no-op at
`readyState = 0` and creates its layer at any non-zero readiness. -/
theorem c9_readiness_guards (rs : List Nat) (er qr : Except String Unit)
    (s : BootState) (r : Nat) (t : SingleBootState)
    (hbelow : ∃ x ∈ rs, x ≠ 4) :
    renderFrame ⟨rs, er, qr⟩ s = s ∧
    (r = 0 → renderFrameSingle r t = t) ∧
    (r ≠ 0 → t.hasMediaLayer = false → t.layersSupported = true →
      (renderFrameSingle r t).hasMediaLayer = true ∧
      (renderFrameSingle r t).renderLayers =
        [Layer.equirect, t.renderLayers.headD Layer.undefLayer]) := by
  obtain ⟨x, hx, hne⟩ := hbelow
  have hnotready : isVideosReady rs = false := by
    simp [isVideosReady, List.all_eq_true]
    exact ⟨x, hx, hne⟩
  refine ⟨?_, ?_, ?_⟩
  · simp [renderFrame, hnotready]
  · intro hr
    simp [renderFrameSingle, hr]
  · intro hr hm hsup
    simp [renderFrameSingle, hr, hm, hsup]

/-- Witness for C9 amended: with readiness `[4, 2]` the multi-layer frame
is a no-op, while the single-layer frame at `readyState = 2` creates its
layer. -/
theorem c9_readiness_guards_witness :
    renderFrame ⟨[4, 2], Except.ok (), Except.ok ()⟩ initialBootState = initialBootState ∧
    (renderFrameSingle 2 initialSingleBootState).renderLayers =
      [Layer.equirect, Layer.base] :=
  ⟨(c9_readiness_guards [4, 2] (Except.ok ()) (Except.ok ()) initialBootState 2
      initialSingleBootState (by decide)).1,
   ((c9_readiness_guards [4, 2] (Except.ok ()) (Except.ok ()) initialBootState 2
      initialSingleBootState (by decide)).2.2 (by decide) rfl rfl).2⟩

end WebXRLayers
